import Mathlib

/-!
Shallow embedding of `src/debug_mqtt_packet.py`.

The script hard-codes one MQTT PUBLISH packet as a list of bytes and checks
whether the declared remaining-length byte (`mqtt_packet[1]`) «matches» the
recomputed remaining length `topic_len_field + topic_len + len(payload)`,
where `payload = mqtt_packet[payload_start:]` and
`payload_start = 2 + topic_len_field + topic_len`.

The embedding generalizes the script's computation over the packet and the
topic length, exactly as the lines compute it:
  - Python indexing `packet[1]` raises `IndexError` when the list is shorter
    than 2, embedded as the `none` branch of `packet[1]?`;
  - the Python slice `packet[payload_start:]` with a non-negative start never
    raises and clamps to the end of the list, which is `List.drop`.
-/

/-- The only exception the generalized computation can raise: Python
`IndexError` from evaluating `packet[1]` on a list of length < 2. -/
inductive PyError where
  | IndexError
deriving DecidableEq

/-- The structured record of the validator: the declared remaining-length
byte, the computed payload length, the recomputed remaining length, whether
they match, and the sliced payload bytes. -/
structure MqttReport where
  declaredRemainingLength : Nat
  computedPayloadLength : Nat
  computedRemainingLength : Nat
  «matches» : Bool
  payloadBytes : List Nat
deriving DecidableEq

/-- `topic_len_field = 2` from the source: the size in bytes of the
big-endian topic-length prefix. -/
def topic_len_field : Nat := 2

/-- The validator, embedding lines 19-30 of `debug_mqtt_packet.py`
generalized over `packet` and `topic_len`:
`payload_start = 2 + topic_len_field + topic_len`,
`payload = packet[payload_start:]`,
`expected_remaining = topic_len_field + topic_len + len(payload)`,
`«matches» = (expected_remaining == packet[1])`. -/
def debug_mqtt_packet (packet : List Nat) (topic_len : Nat) :
    Except PyError MqttReport :=
  match packet[1]? with
  | none => Except.error PyError.IndexError
  | some declared =>
    let payload_start := 2 + topic_len_field + topic_len
    let payload := packet.drop payload_start
    let expected_remaining := topic_len_field + topic_len + payload.length
    Except.ok
      { declaredRemainingLength := declared,
        computedPayloadLength := payload.length,
        computedRemainingLength := expected_remaining,
        «matches» := expected_remaining == declared,
        payloadBytes := payload }

/-- The literal packet from lines 4-11 of the source: PUBLISH header with
declared remaining length 0x18, topic length 0x000A, the 10 topic bytes of
"test/topic" and the 13 payload bytes of "Hello, World!". -/
def mqtt_packet : List Nat :=
  [0x30, 0x18,
   0x00, 0x0A,
   0x74, 0x65, 0x73, 0x74, 0x2F, 0x74, 0x6F, 0x70, 0x69, 0x63,
   0x48, 0x65, 0x6C, 0x6C, 0x6F, 0x2C, 0x20, 0x57, 0x6F, 0x72, 0x6C, 0x64,
   0x21]

/-- On a packet with at least two bytes, the validator returns the record
with each field spelled out. Shared unfolding lemma. -/
theorem debug_ok (p : List Nat) (t : Nat) (h : 1 < p.length) :
    debug_mqtt_packet p t =
      Except.ok
        { declaredRemainingLength := p[1],
          computedPayloadLength := (p.drop (2 + topic_len_field + t)).length,
          computedRemainingLength :=
            topic_len_field + t + (p.drop (2 + topic_len_field + t)).length,
          «matches» :=
            topic_len_field + t + (p.drop (2 + topic_len_field + t)).length
              == p[1],
          payloadBytes := p.drop (2 + topic_len_field + t) } := by
  unfold debug_mqtt_packet
  rw [List.getElem?_eq_getElem h]

/-- C1: on the 27-byte source literal with `topic_len = 10`, the validator
returns `computedPayloadLength = 13`, `computedRemainingLength = 25`,
`declaredRemainingLength = 24`, and `matches = false`. -/
theorem c1_concrete_packet :
    debug_mqtt_packet mqtt_packet 10 =
      Except.ok
        { declaredRemainingLength := 24,
          computedPayloadLength := 13,
          computedRemainingLength := 25,
          «matches» := false,
          payloadBytes :=
            [0x48, 0x65, 0x6C, 0x6C, 0x6F, 0x2C, 0x20, 0x57, 0x6F, 0x72,
             0x6C, 0x64, 0x21] } := rfl

/-- C2: whenever `2 + 2 + topic_len ≤ length packet`, the computed payload
length equals `length packet - 4 - topic_len` exactly. -/
theorem c2_payload_length (p : List Nat) (t : Nat)
    (h : 2 + 2 + t ≤ p.length) :
    ∃ r, debug_mqtt_packet p t = Except.ok r ∧
      r.computedPayloadLength = p.length - 4 - t := by
  have h1 : 1 < p.length := by omega
  refine ⟨_, debug_ok p t h1, ?_⟩
  simp only [topic_len_field, List.length_drop]
  omega

/-- Witness for C2 at the source literal with `topic_len = 10`. -/
theorem c2_payload_length_witness :
    2 + 2 + 10 ≤ mqtt_packet.length ∧
      ∃ r, debug_mqtt_packet mqtt_packet 10 = Except.ok r ∧
        r.computedPayloadLength = mqtt_packet.length - 4 - 10 :=
  ⟨by decide, c2_payload_length mqtt_packet 10 (by decide)⟩

/-- C3: for every valid input, the returned record has `matches = true`
exactly when its declared remaining length equals
`topic_len_field + topic_len + computedPayloadLength`. -/
theorem c3_matches_iff (p : List Nat) (t : Nat) (r : MqttReport)
    (h : debug_mqtt_packet p t = Except.ok r) :
    r.«matches» = true ↔
      r.declaredRemainingLength = topic_len_field + t + r.computedPayloadLength := by
  unfold debug_mqtt_packet at h
  cases h1 : p[1]? with
  | none => rw [h1] at h; cases h
  | some d =>
    rw [h1] at h
    injection h with h
    subst h
    simp only [beq_iff_eq]
    exact eq_comm

/-- Witness for C3 at the source literal with `topic_len = 10`. -/
theorem c3_matches_iff_witness :
    ({ declaredRemainingLength := 24,
       computedPayloadLength := 13,
       computedRemainingLength := 25,
       «matches» := false,
       payloadBytes :=
         [0x48, 0x65, 0x6C, 0x6C, 0x6F, 0x2C, 0x20, 0x57, 0x6F, 0x72,
          0x6C, 0x64, 0x21] } : MqttReport).«matches» = true ↔
      (24 : Nat) = topic_len_field + 10 + 13 :=
  c3_matches_iff mqtt_packet 10 _ c1_concrete_packet

/-- C4 counterexample: on the 2-byte packet `[0x30, 0x18]` with
`topic_len = 10` the bound `2 + topic_len_field + 10 > 2` holds, yet the
validator does not fail at all: it returns a normal record (the Python slice
clamps to the end instead of raising an out-of-range error). -/
theorem c4_counterexample :
    2 + topic_len_field + 10 > ([0x30, 0x18] : List Nat).length ∧
      debug_mqtt_packet [0x30, 0x18] 10 =
        Except.ok
          { declaredRemainingLength := 24,
            computedPayloadLength := 0,
            computedRemainingLength := 12,
            «matches» := false,
            payloadBytes := [] } :=
  ⟨by decide, rfl⟩

/-- C4 amended: when `2 + topic_len_field + topic_len > length packet`, the
validator does not fail with an out-of-range error. On packets of length at
least 2 it returns a normal record with empty `payloadBytes` and
`computedPayloadLength = 0`; its only failure mode is the `IndexError` from
reading `packet[1]` when the packet is shorter than 2 bytes. -/
theorem c4_amended_no_out_of_range (p : List Nat) (t : Nat)
    (h : 2 + topic_len_field + t > p.length) :
    (2 ≤ p.length →
      ∃ r, debug_mqtt_packet p t = Except.ok r ∧
        r.payloadBytes = [] ∧ r.computedPayloadLength = 0) ∧
    (p.length < 2 → debug_mqtt_packet p t = Except.error PyError.IndexError) := by
  constructor
  · intro h2
    have h1 : 1 < p.length := h2
    refine ⟨_, debug_ok p t h1, ?_, ?_⟩ <;>
      simp [List.drop_eq_nil_of_le (by omega : p.length ≤ 2 + topic_len_field + t)]
  · intro h2
    unfold debug_mqtt_packet
    rw [List.getElem?_eq_none (by omega : p.length ≤ 1)]

/-- Witness for C4's amended statement at packet `[0x30, 0x18]`,
`topic_len = 10`. -/
theorem c4_amended_no_out_of_range_witness :
    2 + topic_len_field + 10 > ([0x30, 0x18] : List Nat).length ∧
      ((2 ≤ ([0x30, 0x18] : List Nat).length →
        ∃ r, debug_mqtt_packet [0x30, 0x18] 10 = Except.ok r ∧
          r.payloadBytes = [] ∧ r.computedPayloadLength = 0) ∧
      (([0x30, 0x18] : List Nat).length < 2 →
        debug_mqtt_packet [0x30, 0x18] 10 = Except.error PyError.IndexError)) :=
  ⟨by decide, c4_amended_no_out_of_range [0x30, 0x18] 10 (by decide)⟩

/-- C5: on a valid packet whose declared remaining length differs from the
recomputed remaining length, the validator raises no error: it returns a
normal record with `matches = false`. -/
theorem c5_mismatch_is_not_an_error (p : List Nat) (t : Nat)
    (h : 1 < p.length)
    (hne : p.getD 1 0 ≠
      topic_len_field + t + (p.drop (2 + topic_len_field + t)).length) :
    ∃ r, debug_mqtt_packet p t = Except.ok r ∧ r.«matches» = false := by
  refine ⟨_, debug_ok p t h, ?_⟩
  have hg : p.getD 1 0 = p[1] := by
    simp [List.getD_eq_getElem?_getD, List.getElem?_eq_getElem h]
  rw [hg] at hne
  simp only [beq_eq_false_iff_ne]
  exact Ne.symm hne

/-- Witness for C5 at the source literal with `topic_len = 10`, where the
declared 24 differs from the recomputed 25. -/
theorem c5_mismatch_is_not_an_error_witness :
    1 < mqtt_packet.length ∧
      mqtt_packet.getD 1 0 ≠
        topic_len_field + 10 +
          (mqtt_packet.drop (2 + topic_len_field + 10)).length ∧
      ∃ r, debug_mqtt_packet mqtt_packet 10 = Except.ok r ∧
        r.«matches» = false :=
  ⟨by decide, by decide,
    c5_mismatch_is_not_an_error mqtt_packet 10 (by decide) (by decide)⟩

/-- C6: when `2 + topic_len_field + topic_len` equals the packet length
exactly, the returned record has empty `payloadBytes` and
`computedPayloadLength = 0`. -/
theorem c6_boundary_empty_payload (p : List Nat) (t : Nat)
    (h : 2 + topic_len_field + t = p.length) :
    ∃ r, debug_mqtt_packet p t = Except.ok r ∧
      r.payloadBytes = [] ∧ r.computedPayloadLength = 0 := by
  have h1 : 1 < p.length := by omega
  refine ⟨_, debug_ok p t h1, ?_, ?_⟩ <;>
    simp [List.drop_eq_nil_of_le (le_of_eq h.symm)]

/-- Witness for C6 at the 14-byte prefix of the source literal (header,
topic-length field and topic only) with `topic_len = 10`. -/
theorem c6_boundary_empty_payload_witness :
    2 + topic_len_field + 10 =
      ([0x30, 0x18, 0x00, 0x0A,
        0x74, 0x65, 0x73, 0x74, 0x2F, 0x74, 0x6F, 0x70, 0x69, 0x63] :
        List Nat).length ∧
      ∃ r, debug_mqtt_packet
          [0x30, 0x18, 0x00, 0x0A,
           0x74, 0x65, 0x73, 0x74, 0x2F, 0x74, 0x6F, 0x70, 0x69, 0x63] 10 =
        Except.ok r ∧ r.payloadBytes = [] ∧ r.computedPayloadLength = 0 :=
  ⟨by decide,
    c6_boundary_empty_payload
      [0x30, 0x18, 0x00, 0x0A,
       0x74, 0x65, 0x73, 0x74, 0x2F, 0x74, 0x6F, 0x70, 0x69, 0x63] 10
      (by decide)⟩

/-- C7: on any packet of length at least 4, calling the validator with
`topic_len = 0` gives `computedPayloadLength = length packet - 4`. -/
theorem c7_zero_topic_length (p : List Nat) (h : 4 ≤ p.length) :
    ∃ r, debug_mqtt_packet p 0 = Except.ok r ∧
      r.computedPayloadLength = p.length - 4 := by
  have h1 : 1 < p.length := by omega
  refine ⟨_, debug_ok p 0 h1, ?_⟩
  simp [topic_len_field]

/-- Witness for C7 at the source literal. -/
theorem c7_zero_topic_length_witness :
    4 ≤ mqtt_packet.length ∧
      ∃ r, debug_mqtt_packet mqtt_packet 0 = Except.ok r ∧
        r.computedPayloadLength = mqtt_packet.length - 4 :=
  ⟨by decide, c7_zero_topic_length mqtt_packet (by decide)⟩

/-- C8: the validator is deterministic: equal packets and equal topic
lengths give identical results (same record, field for field, or the same
error). -/
theorem c8_deterministic (p₁ p₂ : List Nat) (t₁ t₂ : Nat)
    (hp : p₁ = p₂) (ht : t₁ = t₂) :
    debug_mqtt_packet p₁ t₁ = debug_mqtt_packet p₂ t₂ := by
  rw [hp, ht]

/-- Witness for C8 at the source literal with `topic_len = 10`. -/
theorem c8_deterministic_witness :
    debug_mqtt_packet mqtt_packet 10 = debug_mqtt_packet mqtt_packet 10 :=
  c8_deterministic mqtt_packet mqtt_packet 10 10 rfl rfl

/-- C9: whenever `2 + topic_len_field + topic_len ≤ length packet`, the
recomputed remaining length equals `length packet - 2`, whatever the value
of `topic_len`. -/
theorem c9_remaining_is_length_sub_two (p : List Nat) (t : Nat)
    (h : 2 + topic_len_field + t ≤ p.length) :
    ∃ r, debug_mqtt_packet p t = Except.ok r ∧
      r.computedRemainingLength = p.length - 2 := by
  have h1 : 1 < p.length := by omega
  refine ⟨_, debug_ok p t h1, ?_⟩
  simp only [topic_len_field, List.length_drop] at h ⊢
  omega

/-- Witness for C9 at the source literal with `topic_len = 10`
(`27 - 2 = 25`). -/
theorem c9_remaining_is_length_sub_two_witness :
    2 + topic_len_field + 10 ≤ mqtt_packet.length ∧
      ∃ r, debug_mqtt_packet mqtt_packet 10 = Except.ok r ∧
        r.computedRemainingLength = mqtt_packet.length - 2 :=
  ⟨by decide, c9_remaining_is_length_sub_two mqtt_packet 10 (by decide)⟩

/-- C10: the computation is total on every packet (a packet by the data
model carries its two header bytes, so has length at least 2) and every
topic length, including out-of-range ones: the slice clamps to an empty
list instead of raising, and a record is returned without error. -/
theorem c10_total_slice_clamps (p : List Nat) (t : Nat) (h : 2 ≤ p.length) :
    ∃ r, debug_mqtt_packet p t = Except.ok r ∧
      (p.length ≤ 2 + topic_len_field + t → r.payloadBytes = []) := by
  have h1 : 1 < p.length := h
  refine ⟨_, debug_ok p t h1, fun hle => ?_⟩
  simp [List.drop_eq_nil_of_le hle]

/-- Witness for C10 at the source literal with the out-of-range
`topic_len = 1000`. -/
theorem c10_total_slice_clamps_witness :
    2 ≤ mqtt_packet.length ∧
      ∃ r, debug_mqtt_packet mqtt_packet 1000 = Except.ok r ∧
        (mqtt_packet.length ≤ 2 + topic_len_field + 1000 →
          r.payloadBytes = []) :=
  ⟨by decide, c10_total_slice_clamps mqtt_packet 1000 (by decide)⟩
